import Mathlib

/-!
Verification of the Atlas API client, the extension controller's command
dispatch and deep-link handling, and the chat-prompt helpers of the
mongodb-vscode repository, as a shallow embedding in Lean 4.

Conventions of the embedding:
* Asynchronous effectful methods become pure functions that take the
  controller's mutable fields as an explicit state (`AtlasState`) and the
  outside world's replies (HTTP responses, stored configuration, user input)
  as explicit arguments, and return the result, the new state and the list
  of observable effects in the order the method performs them.
* A JavaScript `throw` becomes `Except.error` carrying the error's message.
* `Date` timestamps are integers (milliseconds); `Date.now()` is the `now`
  field of the environment.
* External library behaviour that the code only calls into (the WHATWG `URL`
  parser, the `query-string` parser) is passed in as a function argument.
* `log.*` calls have no observable behaviour and are not modelled.
-/

/-! ## Constants of the Atlas API controller (src/unnamed/part_001) -/

def ACCEPT_HEADER : String := "application/vnd.atlas.2024-08-05+json"

def BASE_URL : String := "https://cloud-dev.mongodb.com/api/atlas/v2/"

def AUTH_URL : String := "https://cloud-dev.mongodb.com/api/oauth/token"

def BASE_WEB_URL : String := "https://cloud-dev.mongodb.com/v2/"

/-! ## Data model -/

structure ClientCreds where
  clientId : String
  clientSecret : String
deriving Repr, DecidableEq

structure AtlasProject where
  id : String
  name : String
  clusterCount : Nat
deriving Repr, DecidableEq

structure ProjectsResponseBody where
  totalCount : Nat
  results : List AtlasProject
deriving Repr, DecidableEq

structure ElectableSpecs where
  instanceSize : String
  nodeCount : Nat
deriving Repr, DecidableEq

structure RegionConfig where
  electableSpecs : ElectableSpecs
deriving Repr, DecidableEq

structure ReplicationSpec where
  regionConfigs : List RegionConfig
deriving Repr, DecidableEq

structure ConnectionStrings where
  standard : String
  standardSrv : String
deriving Repr, DecidableEq

structure AtlasCluster where
  name : String
  id : String
  connectionStrings : ConnectionStrings
  replicationSpecs : List ReplicationSpec
deriving Repr, DecidableEq

structure ClustersResponseBody where
  totalCount : Nat
  results : List AtlasCluster
deriving Repr, DecidableEq

inductive RecommendationType where
  | REDUCE_LOOKUP_OPS
  | AVOID_UNBOUNDED_ARRAY
  | REDUCE_DOCUMENT_SIZE
  | REMOVE_UNNECESSARY_INDEXES
  | REDUCE_NUMBER_OF_NAMESPACES
  | OPTIMIZE_CASE_INSENSITIVE_REGEX_QUERIES
  | OPTIMIZE_TEXT_QUERIES
deriving Repr, DecidableEq

inductive TriggerType where
  | PERCENT_QUERIES_USE_LOOKUP
  | NUMBER_OF_QUERIES_USE_LOOKUP
  | DOCS_CONTAIN_UNBOUNDED_ARRAY
  | NUMBER_OF_NAMESPACES
  | DOC_SIZE_TOO_LARGE
  | NUM_INDEXES
  | QUERIES_CONTAIN_CASE_INSENSITIVE_REGEX
deriving Repr, DecidableEq

structure SchemaTrigger where
  description : String
  triggerType : TriggerType
deriving Repr, DecidableEq

/-- An affected namespace of a schema recommendation. The source field
`namespace` is a Lean keyword, so it is called `nameSpace` here. -/
structure AffectedNamespace where
  nameSpace : Option String
  triggers : List SchemaTrigger
deriving Repr, DecidableEq

structure SchemaRecommendation where
  affectedNamespaces : List AffectedNamespace
  description : String
  recommendation : RecommendationType
deriving Repr, DecidableEq

structure SchemaAdviceContent where
  recommendations : List SchemaRecommendation
deriving Repr, DecidableEq

structure SchemaAdviceResponseBody where
  status : Nat
  content : SchemaAdviceContent
deriving Repr, DecidableEq

structure ShapeStats where
  ms : Int
  nReturned : Int
  nScanned : Int
  ts : Int
deriving Repr, DecidableEq

/-- One operation of a query shape. `predicates` is `unknown[]` in the
source; its values are opaque strings here. -/
structure ShapeOperation where
  predicates : List String
  stats : ShapeStats
deriving Repr, DecidableEq

/-- A query shape of the suggested-indexes payload. The fractional `avgMs`
and `inefficiencyScore` numbers are carried as integers: the client never
computes with them. The source field `namespace` is `nameSpace` here. -/
structure QueryShape where
  avgMs : Int
  count : String
  inefficiencyScore : Int
  nameSpace : String
  operations : ShapeOperation
deriving Repr, DecidableEq

structure IndexName where
  name : String
deriving Repr, DecidableEq

structure SuggestedIndexEntry where
  avgObjSize : Int
  impact : List String
  index : List IndexName
  nameSpace : String
  weight : Int
deriving Repr, DecidableEq

structure SuggestedIndexesContent where
  shapes : List QueryShape
  suggestedIndexes : List SuggestedIndexEntry
deriving Repr, DecidableEq

structure SuggestedIndexesResponseBody where
  status : Nat
  content : SuggestedIndexesContent
deriving Repr, DecidableEq

/-- An HTTP response as the client observes it: the `ok` flag, the
`statusText`, and the already-parsed JSON body. -/
structure Response (β : Type) where
  ok : Bool
  statusText : String
  body : β
deriving Repr, DecidableEq

/-- The JSON body of a successful OAuth token response
(`data.access_token`, `data.expires_in` in seconds). -/
structure AuthTokenBody where
  access_token : String
  expires_in : Int
deriving Repr, DecidableEq

/-- The controller's cached token (`this._tokenData`): the bearer token and
its expiry as a millisecond timestamp. -/
structure TokenData where
  accessToken : String
  expiresAt : Int
deriving Repr, DecidableEq

/-- The mutable fields of `AtlasApiController`. -/
structure AtlasState where
  clientCreds : Option ClientCreds := none
  tokenData : Option TokenData := none
  projectId : Option String := none
deriving Repr, DecidableEq

/-- An outgoing HTTP request as built by the client. -/
structure HttpRequest where
  url : String
  method : String
  headers : List (String × String)
  body : Option String
deriving Repr, DecidableEq

/-- A value of a parsed deep-link query parameter: `query-string` is called
with `parseBooleans` and `parseNumbers`, so a value is a string, a number or
a boolean. -/
inductive QVal where
  | str (s : String)
  | num (n : Int)
  | bool (b : Bool)
deriving Repr, DecidableEq

inductive TelemetryEvent where
  | commandRun (command : String)
  | deepLink (command : String) (source : Option String)
deriving Repr, DecidableEq

/-- The observable effects the modelled methods perform, in order. -/
inductive Effect where
  | fetchAuth (req : HttpRequest)
  | fetchApi (req : HttpRequest)
  | streamProgress (message : String)
  | showInputBox (prompt : String)
  | showInfoDialog (message : String)
  | showQuickPick (items : List String) (placeHolder : String)
  | setOptedIn (value : Bool)
  | setClientId (value : String)
  | setClientSecret (value : String)
  | track (event : TelemetryEvent)
  | executeCommand (command : String) (parameters : List (String × QVal))
  | showErrorMessage (message : String)
deriving Repr, DecidableEq

/-- The environment of one client call: the clock, what the storage holds,
what the user would type into the input boxes, and the auth endpoint's
response. -/
structure AuthEnv where
  now : Int
  storedClientId : Option String
  storedClientSecret : Option String
  inputClientId : Option String
  inputClientSecret : Option String
  authResponse : Response AuthTokenBody

/-! ## Helpers shared by the embedding -/

/-- JavaScript truthiness of a `string | null | undefined` value: the empty
string, `null` and `undefined` are falsy. -/
def strTruthy : Option String → Bool
  | none => false
  | some s => !s.isEmpty

/-- Standard base64 alphabet, for `Buffer.from(s).toString(base64)`. -/
def base64Chars : List Char :=
  "ABCDEFGHIJKLMNOPQRSTUVWXYZabcdefghijklmnopqrstuvwxyz0123456789+/".toList

def base64Digit (n : Nat) : Char := base64Chars.getD n '='

/-- Base64 of a byte list, with padding. -/
def base64Encode : List Nat → List Char
  | [] => []
  | [a] =>
      [base64Digit (a / 4), base64Digit (a % 4 * 16), '=', '=']
  | [a, b] =>
      [base64Digit (a / 4), base64Digit (a % 4 * 16 + b / 16),
       base64Digit (b % 16 * 4), '=']
  | a :: b :: c :: rest =>
      base64Digit (a / 4) :: base64Digit (a % 4 * 16 + b / 16) ::
        base64Digit (b % 16 * 4 + c / 64) :: base64Digit (c % 64) ::
          base64Encode rest

/-- `Buffer.from(s).toString(base64)`: base64 of the UTF-8 bytes of `s`. -/
def base64 (s : String) : String :=
  String.mk (base64Encode (s.toUTF8.data.toList.map UInt8.toNat))

/-- Bool test for `a.includes(b)` on lists. -/
def listIsPrefixOfB [BEq α] : List α → List α → Bool
  | [], _ => true
  | _ :: _, [] => false
  | a :: as, b :: bs => a == b && listIsPrefixOfB as bs

def listIsInfixOfB [BEq α] (needle : List α) (haystack : List α) : Bool :=
  match haystack with
  | [] => needle.isEmpty
  | _ :: t => listIsPrefixOfB needle haystack || listIsInfixOfB needle t

/-- JavaScript `s.includes(sub)`: substring containment. -/
def strIncludes (s sub : String) : Bool := listIsInfixOfB sub.toList s.toList

/-- JavaScript `s.startsWith(pre)`, written over the character list so that
it evaluates in the kernel. -/
def strStartsWith (s pre : String) : Bool := listIsPrefixOfB pre.toList s.toList

/-- JavaScript `s.endsWith(suffix)`, written over the character list so that
it evaluates in the kernel. -/
def strEndsWith (s suffix : String) : Bool :=
  listIsPrefixOfB suffix.toList.reverse s.toList.reverse

/-! ## AtlasApiController (src/unnamed/part_001) -/

/-- `AtlasApiController.isAtlasConnectionString`. `new URL(connectionString)`
is the WHATWG URL parser, external to the repository: it is passed in as
`parseURL`, returning `none` exactly when the constructor would throw. -/
def isAtlasConnectionString (parseURL : String → Option (String × String))
    (connectionString : String) : Except String Bool :=
  match parseURL connectionString with
  | none => .error "TypeError: Invalid URL"
  | some (protocol, hostname) =>
    .ok (protocol == "mongodb+srv:" &&
      (strEndsWith hostname ".mongodb.net" || strEndsWith hostname ".mongodb-dev.net"))

/-- `AtlasApiController.buildPerformanceAdvisorUrl`. `new URLSearchParams(
{path: <rootMetricsRoute>/advisor}).toString()` is inlined as the percent
encoding it produces. -/
def buildPerformanceAdvisorUrl (groupId clusterName : String) : String :=
  BASE_WEB_URL ++ groupId ++ "#/metrics/atlasRedirect/" ++ clusterName ++
    "?path=%3CrootMetricsRoute%3E%2Fadvisor"

/-- The modal consent message of `AtlasApiController.isOptedIn`. -/
def optInDialogMessage : String :=
  "We've detected that you appear to be using a cluster from MongoDB Atlas.\n" ++
    "Would you like to allow API access to your Atlas project for additional insights? " ++
    "This will require you to set up a Service Account in your Atlas project.\n" ++
    "You can opt out of this at any time by changing the \"mdb.atlas.optedIn\" setting in your workspace settings."

/-- `AtlasApiController.isOptedIn`. `storedOptedIn` is what
`AtlasStorage.getStoredOptedIn` returns; `dialogResponse` is the item title
the user picks in the modal dialog (`none` = the dialog was dismissed).
Returns (result, stored value after the call, effects). -/
def isOptedIn (storedOptedIn : Option Bool) (dialogResponse : Option String) :
    Bool × Option Bool × List Effect :=
  match storedOptedIn with
  | some optedIn => (optedIn, some optedIn, [])
  | none =>
    let effs := [Effect.showInfoDialog optInDialogMessage]
    match dialogResponse with
    | none => (false, none, effs)
    | some title =>
      if title == "Yes" then (true, some true, effs ++ [Effect.setOptedIn true])
      else (false, some false, effs ++ [Effect.setOptedIn false])

/-- `AtlasApiController._loadOrSaveClientCredsWithInputBox`. `stream` is
whether a chat response stream was passed (`stream?.progress` fires only
then). -/
def loadOrSaveClientCredsWithInputBox (stream : Bool) (st : AtlasState)
    (env : AuthEnv) : Except String ClientCreds × AtlasState × List Effect :=
  match st.clientCreds with
  | some creds => (.ok creds, st, [])
  | none =>
    let storedClientId := env.storedClientId
    let cached : Option ClientCreds :=
      if strTruthy storedClientId then
        if strTruthy env.storedClientSecret then
          some { clientId := storedClientId.getD "",
                 clientSecret := env.storedClientSecret.getD "" }
        else none
      else none
    match cached with
    | some creds => (.ok creds, { st with clientCreds := some creds }, [])
    | none =>
      let progressEffs : List Effect :=
        if stream then
          [Effect.streamProgress ("Please enter your Atlas " ++
            (if storedClientId = none then "Client ID and " else "") ++
            "Client Secret in the input prompts.")]
        else []
      let idBoxEffs : List Effect :=
        match storedClientId with
        | some _ => []
        | none => [Effect.showInputBox "Enter your Atlas Client ID"]
      let clientId : Option String :=
        match storedClientId with
        | some s => some s
        | none => env.inputClientId
      if !strTruthy clientId then
        (.error "Client ID is required", st, progressEffs ++ idBoxEffs)
      else
        let secretBoxEffs := [Effect.showInputBox "Enter your Atlas Client Secret"]
        if !strTruthy env.inputClientSecret then
          (.error "Client Secret is required", st,
           progressEffs ++ idBoxEffs ++ secretBoxEffs)
        else
          let creds : ClientCreds :=
            { clientId := clientId.getD "",
              clientSecret := env.inputClientSecret.getD "" }
          (.ok creds, { st with clientCreds := some creds },
           progressEffs ++ idBoxEffs ++ secretBoxEffs ++
             [Effect.setClientId creds.clientId,
              Effect.setClientSecret creds.clientSecret])

/-- `AtlasApiController._getClientCreds`. -/
def getClientCreds (stream : Bool) (st : AtlasState) (env : AuthEnv) :
    Except String ClientCreds × AtlasState × List Effect :=
  match st.clientCreds with
  | none => loadOrSaveClientCredsWithInputBox stream st env
  | some creds => (.ok creds, st, [])

/-- The OAuth2 client-credentials POST that `_refreshAccessToken` sends. -/
def authRequest (creds : ClientCreds) : HttpRequest :=
  { url := AUTH_URL
    method := "POST"
    headers :=
      [("Content-Type", "application/x-www-form-urlencoded"),
       ("authorization",
        "Basic " ++ base64 (creds.clientId ++ ":" ++ creds.clientSecret))]
    body := some "grant_type=client_credentials" }

/-- `AtlasApiController._refreshAccessToken`. -/
def refreshAccessToken (stream : Bool) (st : AtlasState) (env : AuthEnv) :
    Except String Unit × AtlasState × List Effect :=
  match getClientCreds stream st env with
  | (.error e, st1, effs) => (.error e, st1, effs)
  | (.ok creds, st1, effs) =>
    let resp := env.authResponse
    if !resp.ok then
      (.error ("Failed to refresh access token: " ++ resp.statusText), st1,
       effs ++ [Effect.fetchAuth (authRequest creds)])
    else
      let td : TokenData :=
        { accessToken := resp.body.access_token
          expiresAt := env.now + resp.body.expires_in * 1000 }
      (.ok (), { st1 with tokenData := some td },
       effs ++ [Effect.fetchAuth (authRequest creds)])

/-- The guard of `_makeRequest`:
`!this._tokenData || this._tokenData.expiresAt <= new Date()`. -/
def tokenStale (tokenData : Option TokenData) (now : Int) : Bool :=
  match tokenData with
  | none => true
  | some td => decide (td.expiresAt ≤ now)

/-- The API request `_makeRequest` builds. -/
def apiRequest (endpoint method : String) (body : Option String)
    (accessToken : String) : HttpRequest :=
  { url := BASE_URL ++ endpoint
    method := method
    headers :=
      [("Authorization", "Bearer " ++ accessToken),
       ("Accept", ACCEPT_HEADER),
       ("Content-Type", "application/json")]
    body := body }

/-- `AtlasApiController._makeRequest`. `apiResponse` is what `fetch` returns
for the API request. -/
def makeRequest (endpoint method : String) (body : Option String)
    (stream : Bool) (st : AtlasState) (env : AuthEnv)
    (apiResponse : Response β) :
    Except String (Response β) × AtlasState × List Effect :=
  let refreshStep : Except String Unit × AtlasState × List Effect :=
    if tokenStale st.tokenData env.now then refreshAccessToken stream st env
    else (.ok (), st, [])
  match refreshStep with
  | (.error e, st1, effs) => (.error e, st1, effs)
  | (.ok _, st1, effs) =>
    match st1.tokenData with
    | none => (.error "Failed to refresh access token", st1, effs)
    | some td =>
      (.ok apiResponse, st1,
       effs ++ [Effect.fetchApi (apiRequest endpoint method body td.accessToken)])

/-- `AtlasApiController.getProjects`. -/
def getProjects (st : AtlasState) (env : AuthEnv)
    (projectsResponse : Response ProjectsResponseBody) :
    Except String ProjectsResponseBody × AtlasState × List Effect :=
  match makeRequest "groups" "GET" none false st env projectsResponse with
  | (.error e, st1, effs) => (.error e, st1, effs)
  | (.ok resp, st1, effs) =>
    if !resp.ok then
      (.error ("Failed to fetch projects: " ++ resp.statusText), st1, effs)
    else (.ok resp.body, st1, effs)

/-- `AtlasApiController.getProjectId`. `quickPickResponse` is the project
name the user picks (`none` = dismissed). Indexing `projects[0]` into an
empty array would fault at runtime; that is the `TypeError` error case. -/
def getProjectId (st : AtlasState) (env : AuthEnv)
    (projectsResponse : Response ProjectsResponseBody)
    (quickPickResponse : Option String) :
    Except String (Option String) × AtlasState × List Effect :=
  match st.projectId with
  | some pid => (.ok (some pid), st, [])
  | none =>
    match getProjects st env projectsResponse with
    | (.error e, st1, effs) => (.error e, st1, effs)
    | (.ok projectsBody, st1, effs) =>
      if projectsBody.totalCount = 0 then (.ok none, st1, effs)
      else
        let projects := projectsBody.results
        if projectsBody.totalCount = 1 then
          match projects with
          | [] => (.error "TypeError: cannot read properties of undefined", st1, effs)
          | p :: _ => (.ok (some p.id), { st1 with projectId := some p.id }, effs)
        else
          let projectNames := projects.map (·.name)
          let effs2 := effs ++ [Effect.showQuickPick projectNames "Select a project"]
          if !strTruthy quickPickResponse then (.ok none, st1, effs2)
          else
            match projects.find? (fun p => p.name == quickPickResponse.getD "") with
            | none => (.ok none, st1, effs2)
            | some p => (.ok (some p.id), { st1 with projectId := some p.id }, effs2)

/-- `AtlasApiController.selectCluster`. `projectQuickPick` and
`clusterQuickPick` are the user's quick-pick choices. -/
def selectCluster (projectIdArg : Option String)
    (connectionString : Option String) (st : AtlasState) (env : AuthEnv)
    (projectsResponse : Response ProjectsResponseBody)
    (projectQuickPick : Option String)
    (clustersResponse : Response ClustersResponseBody)
    (clusterQuickPick : Option String) :
    Except String (Option String) × AtlasState × List Effect :=
  let pidStep : Except String (Option String) × AtlasState × List Effect :=
    if !strTruthy projectIdArg then
      getProjectId st env projectsResponse projectQuickPick
    else (.ok projectIdArg, st, [])
  match pidStep with
  | (.error e, st1, effs) => (.error e, st1, effs)
  | (.ok pidOpt, st1, effs) =>
    if !strTruthy projectIdArg && !strTruthy pidOpt then (.ok none, st1, effs)
    else
      let pid := (if strTruthy projectIdArg then projectIdArg else pidOpt).getD ""
      match makeRequest ("groups/" ++ pid ++ "/clusters") "GET" none false st1
          env clustersResponse with
      | (.error e, st2, effs2) => (.error e, st2, effs ++ effs2)
      | (.ok resp, st2, effs2) =>
        let effsA := effs ++ effs2
        if !resp.ok then
          (.error ("Failed to fetch clusters: " ++ resp.statusText), st2, effsA)
        else
          let clustersBody := resp.body
          if clustersBody.totalCount = 0 then (.ok none, st2, effsA)
          else
            let clusters := clustersBody.results
            let matching : Option AtlasCluster :=
              match connectionString with
              | none => none
              | some cs =>
                if cs.isEmpty then none
                else clusters.find? (fun c =>
                  strIncludes c.connectionStrings.standardSrv cs ||
                    strIncludes cs c.connectionStrings.standardSrv)
            match matching with
            | some c => (.ok (some c.name), st2, effsA)
            | none =>
              let clusterNames := clusters.map (·.name)
              let effsB := effsA ++ [Effect.showQuickPick clusterNames "Select a cluster"]
              if !strTruthy clusterQuickPick then (.ok none, st2, effsB)
              else
                match clusters.find? (fun c => c.name == clusterQuickPick.getD "") with
                | none => (.ok none, st2, effsB)
                | some c => (.ok (some c.name), st2, effsB)

/-- `AtlasApiController.fetchSchemaAdvice`. -/
def fetchSchemaAdvice (groupId clusterName : String) (stream : Bool)
    (st : AtlasState) (env : AuthEnv)
    (response : Response SchemaAdviceResponseBody) :
    Except String SchemaAdviceResponseBody × AtlasState × List Effect :=
  let endpoint := "groups/" ++ groupId ++ "/clusters/" ++ clusterName ++
    "/performanceAdvisor/schemaAdvice"
  match makeRequest endpoint "GET" none stream st env response with
  | (.error e, st1, effs) => (.error e, st1, effs)
  | (.ok resp, st1, effs) =>
    if !resp.ok then
      (.error ("Failed to fetch schema advice: " ++ resp.statusText), st1, effs)
    else (.ok resp.body, st1, effs)

/-- `AtlasApiController.fetchSuggestedIndexes`. -/
def fetchSuggestedIndexes (groupId clusterName : String) (stream : Bool)
    (st : AtlasState) (env : AuthEnv)
    (response : Response SuggestedIndexesResponseBody) :
    Except String SuggestedIndexesResponseBody × AtlasState × List Effect :=
  let endpoint := "groups/" ++ groupId ++ "/clusters/" ++ clusterName ++
    "/performanceAdvisor/suggestedIndexes"
  match makeRequest endpoint "GET" none stream st env response with
  | (.error e, st1, effs) => (.error e, st1, effs)
  | (.ok resp, st1, effs) =>
    if !resp.ok then
      (.error ("Failed to fetch suggested indexes: " ++ resp.statusText), st1, effs)
    else (.ok resp.body, st1, effs)

/-! ## MDBExtensionController (src/src/mdbExtensionController.ts) -/

/-- A registered command handler, as the runtime sees it: a closure from the
arguments to the effects it performs and the boolean its promise resolves
to. -/
abbrev CommandHandler (α : Type) : Type := α → List Effect × Bool

/-- The host's command registry: `vscode.commands.registerCommand` calls in
order. Dispatch finds the handler registered for an identifier. -/
abbrev CommandRegistry (α : Type) : Type := List (String × CommandHandler α)

/-- The wrapper `registerCommand` installs: it first records a command-run
telemetry event for the identifier and then delegates to the handler. -/
def commandHandlerWithTelemetry (command : String)
    (commandHandler : CommandHandler α) : CommandHandler α :=
  fun args =>
    (Effect.track (TelemetryEvent.commandRun command) :: (commandHandler args).1,
     (commandHandler args).2)

/-- `MDBExtensionController.registerCommand`: registers the telemetry
wrapper of the handler with the host. -/
def registerCommand (registry : CommandRegistry α) (command : String)
    (commandHandler : CommandHandler α) : CommandRegistry α :=
  registry ++ [(command, commandHandlerWithTelemetry command commandHandler)]

/-- The registry after `registerCommands` runs a registration table: every
`(identifier, handler)` entry goes through `registerCommand` in order. -/
def registerAll (table : List (String × CommandHandler α)) : CommandRegistry α :=
  table.foldl (fun registry entry => registerCommand registry entry.1 entry.2) []

/-- `vscode.commands.executeCommand` against the registry: runs the handler
registered for the identifier, if any. -/
def dispatchCommand (registry : CommandRegistry α) (command : String)
    (args : α) : Option (List Effect × Bool) :=
  (registry.find? (fun entry => entry.1 == command)).map (fun entry => entry.2 args)

/-- The command-identifier derivation of `_handleDeepLink`:
`uri.path.replace(regex-of-one-leading-slash, empty)`, then prefix `mdb.`
unless already present. -/
def deriveDeepLinkCommand (path : String) : String :=
  let command := match path.toList with
    | '/' :: rest => String.mk rest
    | _ => path
  if strStartsWith command "mdb." then command else "mdb." ++ command

/-- Lookup of a key among parsed query parameters (a parsed JS object has
each key once; `find?` takes the first). -/
def lookupParam (parameters : List (String × QVal)) (key : String) : Option QVal :=
  (parameters.find? (fun p => p.1 == key)).map (fun p => p.2)

/-- The `utm_source` extraction of `_handleDeepLink`: the value when it is
present and a string, else `undefined`. -/
def utmSource (parameters : List (String × QVal)) : Option String :=
  match lookupParam parameters "utm_source" with
  | some (QVal.str s) => some s
  | _ => none

/-- `MDBExtensionController._handleDeepLink`. `uriString` is how the URI
prints in the failure message; `registeredCommands` is
`Object.values(EXTENSION_COMMANDS)`; `parseQuery` is the external
`query-string` parser; `executeResult` is what awaiting
`vscode.commands.executeCommand` does (an error's display string on
rejection). Returns the effects in order. -/
def handleDeepLink (uriString path query : String)
    (registeredCommands : List String)
    (parseQuery : String → List (String × QVal))
    (executeResult : Except String Unit) : List Effect :=
  let command := deriveDeepLinkCommand path
  let parameters0 := parseQuery query
  let source := utmSource parameters0
  let parameters := parameters0.filter (fun p => !(p.1 == "utm_source"))
  let trackEff := Effect.track (TelemetryEvent.deepLink command source)
  if registeredCommands.contains command then
    match executeResult with
    | .ok _ => [trackEff, Effect.executeCommand command parameters]
    | .error e =>
      [trackEff, Effect.executeCommand command parameters,
       Effect.showErrorMessage ("Failed to handle '" ++ uriString ++ "': " ++ e)]
  else
    [trackEff,
     Effect.showErrorMessage ("Failed to handle '" ++ uriString ++
       "': Error: Unable to execute command '" ++ command ++
       "' since it is not registered by the MongoDB extension.")]

/-! ## Prompts (src/unnamed/part_002) -/

/-- `vscode.LanguageModelChatMessageRole`. -/
inductive ChatMessageRole where
  | user
  | assistant
deriving Repr, DecidableEq

/-- A chat message: its role and its content. -/
structure ChatMessage where
  role : ChatMessageRole
  content : String
deriving Repr, DecidableEq

/-- Modelled from the spec: `isContentEmpty` is imported from
`./promptBase`, which is not among the repository files provided; the claim
describes the relevant messages as having "non-empty content", so a
message's content is empty exactly when its content string is empty. -/
def isContentEmpty (message : ChatMessage) : Bool := message.content.isEmpty

/-- `Prompts.doMessagesContainUserInput`: the for-loop returns `true` at the
first message with the User role and non-empty content, else `false`. -/
def doMessagesContainUserInput : List ChatMessage → Bool
  | [] => false
  | message :: rest =>
    if message.role == ChatMessageRole.user && !isContentEmpty message then true
    else doMessagesContainUserInput rest

/-- `Prompts.isPromptEmpty`:
`!request.prompt || request.prompt.trim().length === 0`. -/
def isPromptEmpty (prompt : String) : Bool :=
  prompt.isEmpty || prompt.trim.length = 0

/-! ## Effect classifiers used by the theorems -/

def isFetchEffect : Effect → Bool
  | .fetchAuth _ => true
  | .fetchApi _ => true
  | _ => false

def isApiFetch : Effect → Bool
  | .fetchApi _ => true
  | _ => false

/-- The effects the credential-acquisition flow can perform: progress
messages, input boxes and storage writes, never an HTTP fetch and never a
quick-pick. -/
def isCredEffect : Effect → Bool
  | .streamProgress _ => true
  | .showInputBox _ => true
  | .setClientId _ => true
  | .setClientSecret _ => true
  | _ => false

/-- How many HTTP requests to the versioned API a method performed. -/
def apiFetchCount (effs : List Effect) : Nat := (effs.filter isApiFetch).length

/-- The command-identifier derivation exactly as claim C3 words it: prefix
the URI path itself with `mdb.` when the path does not already start with
`mdb.`. Written from the claim's words, to compare with
`deriveDeepLinkCommand`, which first strips one leading slash. -/
def claimDeriveDeepLinkCommand (path : String) : String :=
  if strStartsWith path "mdb." then path else "mdb." ++ path

/-! ## Concrete fixtures for witnesses -/

def credsW : ClientCreds := { clientId := "client-id", clientSecret := "client-secret" }

def authRespW : Response AuthTokenBody :=
  { ok := true, statusText := "OK",
    body := { access_token := "new-token", expires_in := 60 } }

def envW : AuthEnv :=
  { now := 0, storedClientId := none, storedClientSecret := none,
    inputClientId := none, inputClientSecret := none, authResponse := authRespW }

def stStaleW : AtlasState :=
  { clientCreds := some credsW, tokenData := none, projectId := none }

def tdW : TokenData := { accessToken := "cached-token", expiresAt := 1000 }

def stFreshW : AtlasState :=
  { clientCreds := some credsW, tokenData := some tdW, projectId := none }

def projW : AtlasProject := { id := "p1", name := "Project One", clusterCount := 1 }

def projRespW : Response ProjectsResponseBody :=
  { ok := true, statusText := "OK", body := { totalCount := 1, results := [projW] } }

def clustersRespW : Response ClustersResponseBody :=
  { ok := true, statusText := "OK", body := { totalCount := 0, results := [] } }

def schemaRespW : Response SchemaAdviceResponseBody :=
  { ok := true, statusText := "OK",
    body := { status := 200, content := { recommendations := [] } } }

def indexesRespW : Response SuggestedIndexesResponseBody :=
  { ok := true, statusText := "OK",
    body := { status := 200, content := { shapes := [], suggestedIndexes := [] } } }

def unitRespW : Response Unit := { ok := true, statusText := "OK", body := () }

def handlerW : CommandHandler Nat := fun _ => ([], true)

def tableW : List (String × CommandHandler Nat) := [("mdb.openOverviewPage", handlerW)]

def parseURLW : String → Option (String × String) :=
  fun _ => some ("mongodb+srv:", "cluster0.mongodb.net")

def parseQueryW : String → List (String × QVal) := fun _ => []

/-! ## Helper lemmas -/

/-- The credential flow performs only progress, input-box and storage-write
effects. -/
theorem loadCreds_effects (stream : Bool) (st : AtlasState) (env : AuthEnv) :
    ∀ e ∈ (loadOrSaveClientCredsWithInputBox stream st env).2.2,
      isCredEffect e = true := by
  have hall : ((loadOrSaveClientCredsWithInputBox stream st env).2.2).all isCredEffect = true := by
    unfold loadOrSaveClientCredsWithInputBox
    cases h : env.storedClientId
    all_goals (repeat' (first | split | simp [isCredEffect, strTruthy]))
  intro e he
  exact List.all_eq_true.mp hall e he

/-- The `_getClientCreds` wrapper performs only credential-flow effects. -/
theorem getClientCreds_effects (stream : Bool) (st : AtlasState) (env : AuthEnv) :
    ∀ e ∈ (getClientCreds stream st env).2.2, isCredEffect e = true := by
  intro e he
  unfold getClientCreds at he
  split at he
  · exact loadCreds_effects stream st env e he
  · simp at he

/-- A credential-flow effect is neither a fetch nor a quick-pick. -/
theorem credEffect_not_fetch (e : Effect) (h : isCredEffect e = true) :
    isFetchEffect e = false ∧ isApiFetch e = false ∧
      ∀ items ph, e ≠ Effect.showQuickPick items ph := by
  cases e <;> simp_all [isCredEffect, isFetchEffect, isApiFetch]

/-- With a fresh cached token, `_makeRequest` refreshes nothing: it returns
the API response, leaves the state unchanged and sends exactly the one API
request, with the cached bearer token. -/
theorem makeRequest_fresh {β : Type} (endpoint method : String)
    (body : Option String) (stream : Bool) (st : AtlasState) (env : AuthEnv)
    (apiResponse : Response β) (td : TokenData)
    (hstale : tokenStale st.tokenData env.now = false)
    (htd : st.tokenData = some td) :
    makeRequest endpoint method body stream st env apiResponse =
      (.ok apiResponse, st,
       [Effect.fetchApi (apiRequest endpoint method body td.accessToken)]) := by
  rw [htd] at hstale
  simp [makeRequest, hstale, htd]

/-- With no cached token or a stale one, `_makeRequest` runs the credential
flow (fetch-free), then either fails before any fetch, or sends exactly one
token-refresh request and fails, or sends the one refresh request followed
by the one API request carrying the newly cached bearer token. -/
theorem makeRequest_stale {β : Type} (endpoint method : String)
    (body : Option String) (stream : Bool) (st : AtlasState) (env : AuthEnv)
    (apiResponse : Response β)
    (hstale : tokenStale st.tokenData env.now = true) :
    ∃ credEffs, (∀ e ∈ credEffs, isCredEffect e = true) ∧
      (((makeRequest endpoint method body stream st env apiResponse).2.2 = credEffs ∧
          ∃ err, (makeRequest endpoint method body stream st env apiResponse).1 =
            .error err) ∨
       (∃ creds,
          (makeRequest endpoint method body stream st env apiResponse).2.2 =
            credEffs ++ [Effect.fetchAuth (authRequest creds)] ∧
          ∃ err, (makeRequest endpoint method body stream st env apiResponse).1 =
            .error err) ∨
       (∃ creds td,
          (makeRequest endpoint method body stream st env apiResponse).2.1.tokenData =
            some td ∧
          (makeRequest endpoint method body stream st env apiResponse).2.2 =
            credEffs ++
              [Effect.fetchAuth (authRequest creds),
               Effect.fetchApi (apiRequest endpoint method body td.accessToken)] ∧
          (makeRequest endpoint method body stream st env apiResponse).1 =
            .ok apiResponse)) := by
  have hcred := getClientCreds_effects stream st env
  rcases hG : getClientCreds stream st env with ⟨res, st1, effs⟩
  rw [hG] at hcred
  simp only at hcred
  refine ⟨effs, hcred, ?_⟩
  cases res with
  | error err =>
    left
    constructor
    · simp [makeRequest, hstale, refreshAccessToken, hG]
    · exact ⟨err, by simp [makeRequest, hstale, refreshAccessToken, hG]⟩
  | ok creds =>
    cases hA : env.authResponse.ok with
    | false =>
      right; left
      refine ⟨creds, ?_, ?_⟩
      · simp [makeRequest, hstale, refreshAccessToken, hG, hA]
      · exact ⟨"Failed to refresh access token: " ++ env.authResponse.statusText,
          by simp [makeRequest, hstale, refreshAccessToken, hG, hA]⟩
    | true =>
      right; right
      refine ⟨creds,
        ⟨env.authResponse.body.access_token,
         env.now + env.authResponse.body.expires_in * 1000⟩, ?_, ?_, ?_⟩ <;>
        simp [makeRequest, hstale, refreshAccessToken, hG, hA]

/-! ## Claim theorems -/

/-- C1. For every Atlas API request made through the client's `_makeRequest`:
if no access token is cached or the cached token's expiry is at or before
the current time, exactly one token-refresh request (the OAuth2
client-credentials POST) is performed before the API request is sent; if a
cached token exists and is not expired, no token-refresh request is
performed and the cached token is reused in the API request. -/
theorem makeRequest_refreshes_iff_stale {β : Type} (endpoint method : String)
    (body : Option String) (stream : Bool) (st : AtlasState) (env : AuthEnv)
    (apiResponse : Response β) :
    (tokenStale st.tokenData env.now = true →
      ∀ req, Effect.fetchApi req ∈
          (makeRequest endpoint method body stream st env apiResponse).2.2 →
        ∃ authReq,
          ((makeRequest endpoint method body stream st env apiResponse).2.2).filter
              isFetchEffect =
            [Effect.fetchAuth authReq, Effect.fetchApi req]) ∧
    (tokenStale st.tokenData env.now = false →
      ∃ td, st.tokenData = some td ∧
        (makeRequest endpoint method body stream st env apiResponse).2.2 =
          [Effect.fetchApi (apiRequest endpoint method body td.accessToken)] ∧
        (makeRequest endpoint method body stream st env apiResponse).2.1 = st) := by
  constructor
  · intro hstale req hmem
    obtain ⟨credEffs, hce, hcase⟩ :=
      makeRequest_stale endpoint method body stream st env apiResponse hstale
    have hnofetch : credEffs.filter isFetchEffect = [] :=
      List.filter_eq_nil_iff.mpr fun e he => by
        simp [(credEffect_not_fetch e (hce e he)).1]
    have hnoapi : ∀ e ∈ credEffs, Effect.fetchApi req ≠ e := by
      intro e he hcontra
      have h2 := (credEffect_not_fetch e (hce e he)).2.1
      rw [← hcontra] at h2
      simp [isApiFetch] at h2
    rcases hcase with ⟨h22, _⟩ | ⟨creds, h22, _⟩ | ⟨creds, td, htd, h22, _⟩
    · rw [h22] at hmem
      exact absurd rfl (hnoapi _ hmem)
    · rw [h22] at hmem
      rcases List.mem_append.mp hmem with h | h
      · exact absurd rfl (hnoapi _ h)
      · simp at h
    · rw [h22] at hmem
      rcases List.mem_append.mp hmem with h | h
      · exact absurd rfl (hnoapi _ h)
      · have hreq : req = apiRequest endpoint method body td.accessToken := by
          simpa using h
        refine ⟨authRequest creds, ?_⟩
        rw [h22, List.filter_append, hnofetch, hreq]
        simp [isFetchEffect]
  · intro hfresh
    cases htd : st.tokenData with
    | none => rw [htd] at hfresh; simp [tokenStale] at hfresh
    | some td =>
      refine ⟨td, rfl, ?_, ?_⟩ <;>
        rw [makeRequest_fresh endpoint method body stream st env apiResponse td
          hfresh htd]

/-- Witness for C1: with no cached token and a successful auth response, the
fetch sequence is exactly one token-refresh request followed by the API
request carrying the fresh token. -/
theorem makeRequest_refreshes_iff_stale_witness :
    ∃ authReq,
      ((makeRequest "groups" "GET" none false stStaleW envW unitRespW).2.2).filter
          isFetchEffect =
        [Effect.fetchAuth authReq,
         Effect.fetchApi (apiRequest "groups" "GET" none "new-token")] :=
  (makeRequest_refreshes_iff_stale "groups" "GET" none false stStaleW envW
      unitRespW).1
    (by decide) (apiRequest "groups" "GET" none "new-token") (by decide)

/-- An API fetch effect never sits among credential-flow effects. -/
theorem fetchApi_not_mem_credEffs (credEffs : List Effect)
    (hce : ∀ e ∈ credEffs, isCredEffect e = true) (req : HttpRequest) :
    Effect.fetchApi req ∉ credEffs := by
  intro hmem
  have h2 := (credEffect_not_fetch _ (hce _ hmem)).2.1
  simp [isApiFetch] at h2

/-- C5. Every API request `_makeRequest` issues targets the fixed versioned
base URL concatenated with the endpoint path, and carries the fixed
media-type Accept header together with a Bearer authorization header
holding the access token cached in the state the request is sent under. -/
theorem makeRequest_request_shape {β : Type} (endpoint method : String)
    (body : Option String) (stream : Bool) (st : AtlasState) (env : AuthEnv)
    (apiResponse : Response β) (req : HttpRequest)
    (hmem : Effect.fetchApi req ∈
      (makeRequest endpoint method body stream st env apiResponse).2.2) :
    req.url = BASE_URL ++ endpoint ∧
    ("Accept", ACCEPT_HEADER) ∈ req.headers ∧
    ∃ td, (makeRequest endpoint method body stream st env apiResponse).2.1.tokenData =
        some td ∧
      ("Authorization", "Bearer " ++ td.accessToken) ∈ req.headers := by
  cases hstale : tokenStale st.tokenData env.now with
  | true =>
    obtain ⟨credEffs, hce, hcase⟩ :=
      makeRequest_stale endpoint method body stream st env apiResponse hstale
    rcases hcase with ⟨h22, _⟩ | ⟨creds, h22, _⟩ | ⟨creds, td, htd, h22, _⟩
    · rw [h22] at hmem
      exact absurd hmem (fetchApi_not_mem_credEffs credEffs hce req)
    · rw [h22] at hmem
      rcases List.mem_append.mp hmem with h | h
      · exact absurd h (fetchApi_not_mem_credEffs credEffs hce req)
      · simp at h
    · rw [h22] at hmem
      rcases List.mem_append.mp hmem with h | h
      · exact absurd h (fetchApi_not_mem_credEffs credEffs hce req)
      · have hreq : req = apiRequest endpoint method body td.accessToken := by
          simpa using h
        subst hreq
        exact ⟨rfl, by simp [apiRequest], td, htd, by simp [apiRequest]⟩
  | false =>
    cases htd : st.tokenData with
    | none => rw [htd] at hstale; simp [tokenStale] at hstale
    | some td =>
      rw [makeRequest_fresh endpoint method body stream st env apiResponse td
        hstale htd] at hmem ⊢
      have hreq : req = apiRequest endpoint method body td.accessToken := by
        simpa using hmem
      subst hreq
      exact ⟨rfl, by simp [apiRequest], td, htd, by simp [apiRequest]⟩

/-- Witness for C5: with a fresh cached token, the one API request sent for
endpoint `groups` has the base URL, the Accept header and the Bearer header
of the cached token. -/
theorem makeRequest_request_shape_witness :
    (apiRequest "groups" "GET" none "cached-token").url = BASE_URL ++ "groups" ∧
    ("Accept", ACCEPT_HEADER) ∈ (apiRequest "groups" "GET" none "cached-token").headers ∧
    ∃ td, (makeRequest "groups" "GET" none false stFreshW envW unitRespW).2.1.tokenData =
        some td ∧
      ("Authorization", "Bearer " ++ td.accessToken) ∈
        (apiRequest "groups" "GET" none "cached-token").headers :=
  makeRequest_request_shape "groups" "GET" none false stFreshW envW unitRespW
    (apiRequest "groups" "GET" none "cached-token") (by decide)

theorem apiFetchCount_append (a b : List Effect) :
    apiFetchCount (a ++ b) = apiFetchCount a + apiFetchCount b := by
  simp [apiFetchCount, List.filter_append]

/-- `_makeRequest` sends at most one API request. -/
theorem makeRequest_apiFetchCount {β : Type} (endpoint method : String)
    (body : Option String) (stream : Bool) (st : AtlasState) (env : AuthEnv)
    (apiResponse : Response β) :
    apiFetchCount (makeRequest endpoint method body stream st env apiResponse).2.2 ≤ 1 := by
  cases hstale : tokenStale st.tokenData env.now with
  | true =>
    obtain ⟨credEffs, hce, hcase⟩ :=
      makeRequest_stale endpoint method body stream st env apiResponse hstale
    have hnil : credEffs.filter isApiFetch = [] :=
      List.filter_eq_nil_iff.mpr fun e he => by
        simp [(credEffect_not_fetch e (hce e he)).2.1]
    rcases hcase with ⟨h22, _⟩ | ⟨creds, h22, _⟩ | ⟨creds, td, htd, h22, _⟩ <;>
      rw [h22] <;>
      simp [apiFetchCount, List.filter_append, hnil, isApiFetch]
  | false =>
    cases htd : st.tokenData with
    | none => rw [htd] at hstale; simp [tokenStale] at hstale
    | some td =>
      rw [makeRequest_fresh endpoint method body stream st env apiResponse td
        hstale htd]
      simp [apiFetchCount, isApiFetch]

/-- When `_makeRequest` returns a response at all, it is the API response. -/
theorem makeRequest_ok_eq {β : Type} (endpoint method : String)
    (body : Option String) (stream : Bool) (st : AtlasState) (env : AuthEnv)
    (apiResponse : Response β) (v : Response β)
    (h : (makeRequest endpoint method body stream st env apiResponse).1 = .ok v) :
    v = apiResponse := by
  simp only [makeRequest] at h
  repeat' split at h
  all_goals simp_all

theorem getProjects_effs (st : AtlasState) (env : AuthEnv)
    (projectsResponse : Response ProjectsResponseBody) :
    (getProjects st env projectsResponse).2.2 =
      (makeRequest "groups" "GET" none false st env projectsResponse).2.2 := by
  unfold getProjects
  rcases hM : makeRequest "groups" "GET" none false st env projectsResponse with
    ⟨r, st1, effs⟩
  cases r
  · rfl
  · dsimp only
    split <;> rfl

theorem getProjects_fail (st : AtlasState) (env : AuthEnv)
    (projectsResponse : Response ProjectsResponseBody)
    (h : projectsResponse.ok = false) :
    ∃ e, (getProjects st env projectsResponse).1 = .error e := by
  unfold getProjects
  rcases hM : makeRequest "groups" "GET" none false st env projectsResponse with
    ⟨r, st1, effs⟩
  cases r with
  | error e => exact ⟨e, rfl⟩
  | ok resp =>
    obtain rfl : resp = projectsResponse :=
      makeRequest_ok_eq "groups" "GET" none false st env projectsResponse resp
        (by rw [hM])
    exact ⟨"Failed to fetch projects: " ++ resp.statusText, by simp [h]⟩

theorem fetchSchemaAdvice_effs (groupId clusterName : String) (stream : Bool)
    (st : AtlasState) (env : AuthEnv)
    (response : Response SchemaAdviceResponseBody) :
    (fetchSchemaAdvice groupId clusterName stream st env response).2.2 =
      (makeRequest ("groups/" ++ groupId ++ "/clusters/" ++ clusterName ++
          "/performanceAdvisor/schemaAdvice") "GET" none stream st env response).2.2 := by
  unfold fetchSchemaAdvice
  dsimp only
  rcases hM : makeRequest ("groups/" ++ groupId ++ "/clusters/" ++ clusterName ++
      "/performanceAdvisor/schemaAdvice") "GET" none stream st env response with
    ⟨r, st1, effs⟩
  cases r
  · rfl
  · dsimp only
    split <;> rfl

theorem fetchSchemaAdvice_fail (groupId clusterName : String) (stream : Bool)
    (st : AtlasState) (env : AuthEnv)
    (response : Response SchemaAdviceResponseBody) (h : response.ok = false) :
    ∃ e, (fetchSchemaAdvice groupId clusterName stream st env response).1 = .error e := by
  unfold fetchSchemaAdvice
  dsimp only
  rcases hM : makeRequest ("groups/" ++ groupId ++ "/clusters/" ++ clusterName ++
      "/performanceAdvisor/schemaAdvice") "GET" none stream st env response with
    ⟨r, st1, effs⟩
  cases r with
  | error e => exact ⟨e, rfl⟩
  | ok resp =>
    obtain rfl : resp = response :=
      makeRequest_ok_eq ("groups/" ++ groupId ++ "/clusters/" ++ clusterName ++
          "/performanceAdvisor/schemaAdvice") "GET" none stream st env response resp
        (by rw [hM])
    exact ⟨"Failed to fetch schema advice: " ++ resp.statusText, by simp [h]⟩

theorem fetchSuggestedIndexes_effs (groupId clusterName : String) (stream : Bool)
    (st : AtlasState) (env : AuthEnv)
    (response : Response SuggestedIndexesResponseBody) :
    (fetchSuggestedIndexes groupId clusterName stream st env response).2.2 =
      (makeRequest ("groups/" ++ groupId ++ "/clusters/" ++ clusterName ++
          "/performanceAdvisor/suggestedIndexes") "GET" none stream st env response).2.2 := by
  unfold fetchSuggestedIndexes
  dsimp only
  rcases hM : makeRequest ("groups/" ++ groupId ++ "/clusters/" ++ clusterName ++
      "/performanceAdvisor/suggestedIndexes") "GET" none stream st env response with
    ⟨r, st1, effs⟩
  cases r
  · rfl
  · dsimp only
    split <;> rfl

theorem fetchSuggestedIndexes_fail (groupId clusterName : String) (stream : Bool)
    (st : AtlasState) (env : AuthEnv)
    (response : Response SuggestedIndexesResponseBody) (h : response.ok = false) :
    ∃ e, (fetchSuggestedIndexes groupId clusterName stream st env response).1 = .error e := by
  unfold fetchSuggestedIndexes
  dsimp only
  rcases hM : makeRequest ("groups/" ++ groupId ++ "/clusters/" ++ clusterName ++
      "/performanceAdvisor/suggestedIndexes") "GET" none stream st env response with
    ⟨r, st1, effs⟩
  cases r with
  | error e => exact ⟨e, rfl⟩
  | ok resp =>
    obtain rfl : resp = response :=
      makeRequest_ok_eq ("groups/" ++ groupId ++ "/clusters/" ++ clusterName ++
          "/performanceAdvisor/suggestedIndexes") "GET" none stream st env response resp
        (by rw [hM])
    exact ⟨"Failed to fetch suggested indexes: " ++ resp.statusText, by simp [h]⟩

/-- With a truthy project id argument, `selectCluster` sends its one
clusters request through `_makeRequest` and at most appends a quick-pick
effect, never another fetch. -/
theorem selectCluster_effs (projectIdArg connectionString : Option String)
    (st : AtlasState) (env : AuthEnv)
    (projectsResponse : Response ProjectsResponseBody)
    (projectQuickPick : Option String)
    (clustersResponse : Response ClustersResponseBody)
    (clusterQuickPick : Option String)
    (hPid : strTruthy projectIdArg = true) :
    ∃ tail,
      (selectCluster projectIdArg connectionString st env projectsResponse
          projectQuickPick clustersResponse clusterQuickPick).2.2 =
        (makeRequest ("groups/" ++ projectIdArg.getD "" ++ "/clusters") "GET"
            none false st env clustersResponse).2.2 ++ tail ∧
      apiFetchCount tail = 0 := by
  unfold selectCluster
  simp only [hPid, Bool.not_true, Bool.false_eq_true, if_false, Bool.false_and,
    if_true, List.nil_append]
  rcases hM : makeRequest ("groups/" ++ projectIdArg.getD "" ++ "/clusters")
      "GET" none false st env clustersResponse with ⟨r, st2, effs2⟩
  cases r with
  | error e => exact ⟨[], by simp, by simp [apiFetchCount]⟩
  | ok resp =>
    obtain rfl : resp = clustersResponse :=
      makeRequest_ok_eq ("groups/" ++ projectIdArg.getD "" ++ "/clusters")
        "GET" none false st env clustersResponse resp (by rw [hM])
    dsimp only
    repeat' split
    · exact ⟨[], by simp, rfl⟩
    · exact ⟨[], by simp, rfl⟩
    · exact ⟨[], by simp, rfl⟩
    · refine ⟨_, rfl, ?_⟩
      simp [apiFetchCount, isApiFetch]
    · refine ⟨_, rfl, ?_⟩
      simp [apiFetchCount, isApiFetch]
    · refine ⟨_, rfl, ?_⟩
      simp [apiFetchCount, isApiFetch]

/-- With a truthy project id argument and a failed clusters response,
`selectCluster` fails. -/
theorem selectCluster_fail (projectIdArg connectionString : Option String)
    (st : AtlasState) (env : AuthEnv)
    (projectsResponse : Response ProjectsResponseBody)
    (projectQuickPick : Option String)
    (clustersResponse : Response ClustersResponseBody)
    (clusterQuickPick : Option String)
    (hPid : strTruthy projectIdArg = true)
    (h : clustersResponse.ok = false) :
    ∃ e, (selectCluster projectIdArg connectionString st env projectsResponse
        projectQuickPick clustersResponse clusterQuickPick).1 = .error e := by
  unfold selectCluster
  simp only [hPid, Bool.not_true, Bool.false_eq_true, if_false, Bool.false_and,
    if_true, List.nil_append]
  rcases hM : makeRequest ("groups/" ++ projectIdArg.getD "" ++ "/clusters")
      "GET" none false st env clustersResponse with ⟨r, st2, effs2⟩
  cases r with
  | error e => exact ⟨e, by simp⟩
  | ok resp =>
    obtain rfl : resp = clustersResponse :=
      makeRequest_ok_eq ("groups/" ++ projectIdArg.getD "" ++ "/clusters")
        "GET" none false st env clustersResponse resp (by rw [hM])
    exact ⟨"Failed to fetch clusters: " ++ resp.statusText, by simp [h]⟩

/-- With a truthy project id argument and a successful clusters response,
`selectCluster` does not throw. -/
theorem selectCluster_ok (projectIdArg connectionString : Option String)
    (st : AtlasState) (env : AuthEnv)
    (projectsResponse : Response ProjectsResponseBody)
    (projectQuickPick : Option String)
    (clustersResponse : Response ClustersResponseBody)
    (clusterQuickPick : Option String)
    (hPid : strTruthy projectIdArg = true)
    (hM : (makeRequest ("groups/" ++ projectIdArg.getD "" ++ "/clusters")
        "GET" none false st env clustersResponse).1 = .ok clustersResponse)
    (h : clustersResponse.ok = true) :
    ∃ v, (selectCluster projectIdArg connectionString st env projectsResponse
        projectQuickPick clustersResponse clusterQuickPick).1 = .ok v := by
  unfold selectCluster
  simp only [hPid, Bool.not_true, Bool.false_eq_true, if_false, Bool.false_and,
    if_true, List.nil_append]
  rcases hM2 : makeRequest ("groups/" ++ projectIdArg.getD "" ++ "/clusters")
      "GET" none false st env clustersResponse with ⟨r, st2, effs2⟩
  rw [hM2] at hM
  try rw [hM2]
  cases r with
  | error e => simp at hM
  | ok resp =>
    obtain rfl : resp = clustersResponse := by simpa using hM
    dsimp only
    repeat' split
    all_goals first
      | exact ⟨_, rfl⟩
      | simp_all

/-- C6. No Atlas API call is retried: each of `getProjects`,
`selectCluster` (invoked with its project id), `fetchSchemaAdvice` and
`fetchSuggestedIndexes` issues at most one HTTP request to its endpoint per
invocation, and a failed response makes the invocation fail rather than
trigger a further request. -/
theorem atlas_no_retry (st : AtlasState) (env : AuthEnv)
    (groupId clusterName : String) (stream : Bool)
    (pid connStr pq cq : Option String)
    (projResp : Response ProjectsResponseBody)
    (clustersResp : Response ClustersResponseBody)
    (schemaResp : Response SchemaAdviceResponseBody)
    (indexesResp : Response SuggestedIndexesResponseBody)
    (hPid : strTruthy pid = true) :
    (apiFetchCount (getProjects st env projResp).2.2 ≤ 1 ∧
      (projResp.ok = false → ∃ e, (getProjects st env projResp).1 = .error e)) ∧
    (apiFetchCount
        (selectCluster pid connStr st env projResp pq clustersResp cq).2.2 ≤ 1 ∧
      (clustersResp.ok = false →
        ∃ e, (selectCluster pid connStr st env projResp pq clustersResp cq).1 =
          .error e)) ∧
    (apiFetchCount
        (fetchSchemaAdvice groupId clusterName stream st env schemaResp).2.2 ≤ 1 ∧
      (schemaResp.ok = false →
        ∃ e, (fetchSchemaAdvice groupId clusterName stream st env schemaResp).1 =
          .error e)) ∧
    (apiFetchCount
        (fetchSuggestedIndexes groupId clusterName stream st env indexesResp).2.2 ≤ 1 ∧
      (indexesResp.ok = false →
        ∃ e, (fetchSuggestedIndexes groupId clusterName stream st env indexesResp).1 =
          .error e)) := by
  refine ⟨⟨?_, getProjects_fail st env projResp⟩,
          ⟨?_, selectCluster_fail pid connStr st env projResp pq clustersResp cq hPid⟩,
          ⟨?_, fetchSchemaAdvice_fail groupId clusterName stream st env schemaResp⟩,
          ⟨?_, fetchSuggestedIndexes_fail groupId clusterName stream st env indexesResp⟩⟩
  · rw [getProjects_effs]
    exact makeRequest_apiFetchCount _ _ _ _ _ _ _
  · obtain ⟨tail, heq, hzero⟩ :=
      selectCluster_effs pid connStr st env projResp pq clustersResp cq hPid
    rw [heq, apiFetchCount_append, hzero]
    have hle := makeRequest_apiFetchCount ("groups/" ++ pid.getD "" ++ "/clusters")
      "GET" none false st env clustersResp
    omega
  · rw [fetchSchemaAdvice_effs]
    exact makeRequest_apiFetchCount _ _ _ _ _ _ _
  · rw [fetchSuggestedIndexes_effs]
    exact makeRequest_apiFetchCount _ _ _ _ _ _ _

/-- Witness for C6 at a concrete state and responses. -/
theorem atlas_no_retry_witness :
    apiFetchCount (getProjects stFreshW envW projRespW).2.2 ≤ 1 :=
  ((atlas_no_retry stFreshW envW "g1" "c1" false (some "p1") none none none
      projRespW clustersRespW schemaRespW indexesRespW (by decide)).1).1

/-- With a fresh token, `getProjects` returns the parsed body on a success
response and throws the status-text error otherwise. -/
theorem getProjects_result (st : AtlasState) (env : AuthEnv)
    (projResp : Response ProjectsResponseBody) (td : TokenData)
    (hstale : tokenStale st.tokenData env.now = false)
    (htd : st.tokenData = some td) :
    (getProjects st env projResp).1 =
      if projResp.ok then .ok projResp.body
      else .error ("Failed to fetch projects: " ++ projResp.statusText) := by
  unfold getProjects
  rw [makeRequest_fresh "groups" "GET" none false st env projResp td hstale htd]
  cases h : projResp.ok <;> simp [h]

theorem fetchSchemaAdvice_result (groupId clusterName : String) (stream : Bool)
    (st : AtlasState) (env : AuthEnv)
    (response : Response SchemaAdviceResponseBody) (td : TokenData)
    (hstale : tokenStale st.tokenData env.now = false)
    (htd : st.tokenData = some td) :
    (fetchSchemaAdvice groupId clusterName stream st env response).1 =
      if response.ok then .ok response.body
      else .error ("Failed to fetch schema advice: " ++ response.statusText) := by
  unfold fetchSchemaAdvice
  dsimp only
  rw [makeRequest_fresh ("groups/" ++ groupId ++ "/clusters/" ++ clusterName ++
    "/performanceAdvisor/schemaAdvice") "GET" none stream st env response td hstale htd]
  cases h : response.ok <;> simp [h]

theorem fetchSuggestedIndexes_result (groupId clusterName : String) (stream : Bool)
    (st : AtlasState) (env : AuthEnv)
    (response : Response SuggestedIndexesResponseBody) (td : TokenData)
    (hstale : tokenStale st.tokenData env.now = false)
    (htd : st.tokenData = some td) :
    (fetchSuggestedIndexes groupId clusterName stream st env response).1 =
      if response.ok then .ok response.body
      else .error ("Failed to fetch suggested indexes: " ++ response.statusText) := by
  unfold fetchSuggestedIndexes
  dsimp only
  rw [makeRequest_fresh ("groups/" ++ groupId ++ "/clusters/" ++ clusterName ++
    "/performanceAdvisor/suggestedIndexes") "GET" none stream st env response td hstale htd]
  cases h : response.ok <;> simp [h]

/-- With cached client credentials, `_refreshAccessToken` succeeds exactly
when the auth response is a success, and otherwise throws the error carrying
the response's status text. -/
theorem refreshAccessToken_result (stream : Bool) (st : AtlasState)
    (env : AuthEnv) (creds : ClientCreds)
    (hCreds : st.clientCreds = some creds) :
    (refreshAccessToken stream st env).1 =
      if env.authResponse.ok then .ok ()
      else .error ("Failed to refresh access token: " ++ env.authResponse.statusText) := by
  have hG : getClientCreds stream st env = (.ok creds, st, []) := by
    unfold getClientCreds
    rw [hCreds]
  cases h : env.authResponse.ok <;> simp [refreshAccessToken, hG, h]

/-- With a truthy project id and a fresh token, a failed clusters response
makes `selectCluster` throw the status-text error. -/
theorem selectCluster_fresh_fail (pid connStr : Option String)
    (st : AtlasState) (env : AuthEnv)
    (projResp : Response ProjectsResponseBody) (pq : Option String)
    (clustersResp : Response ClustersResponseBody) (cq : Option String)
    (td : TokenData)
    (hPid : strTruthy pid = true)
    (hstale : tokenStale st.tokenData env.now = false)
    (htd : st.tokenData = some td)
    (h : clustersResp.ok = false) :
    (selectCluster pid connStr st env projResp pq clustersResp cq).1 =
      .error ("Failed to fetch clusters: " ++ clustersResp.statusText) := by
  unfold selectCluster
  simp only [hPid, Bool.not_true, Bool.false_eq_true, if_false, Bool.false_and,
    if_true, List.nil_append]
  rw [makeRequest_fresh ("groups/" ++ pid.getD "" ++ "/clusters") "GET" none
    false st env clustersResp td hstale htd]
  simp [h]

/-- C4. For every Atlas API call made with a valid cached token (project
list, cluster list, schema advice, suggested indexes) and for the
token-refresh call made with stored credentials: the call throws an error
exactly when its HTTP response is non-success, the thrown message carries
the response's HTTP status text, and a success response yields the parsed
body (for `selectCluster`, a non-throwing result) instead. -/
theorem atlas_throw_iff_response_not_ok (st : AtlasState) (env : AuthEnv)
    (groupId clusterName : String) (stream : Bool)
    (pid connStr pq cq : Option String)
    (projResp : Response ProjectsResponseBody)
    (clustersResp : Response ClustersResponseBody)
    (schemaResp : Response SchemaAdviceResponseBody)
    (indexesResp : Response SuggestedIndexesResponseBody)
    (td : TokenData) (creds : ClientCreds)
    (htd : st.tokenData = some td)
    (hstale : tokenStale st.tokenData env.now = false)
    (hCreds : st.clientCreds = some creds)
    (hPid : strTruthy pid = true) :
    ((getProjects st env projResp).1 =
      if projResp.ok then .ok projResp.body
      else .error ("Failed to fetch projects: " ++ projResp.statusText)) ∧
    ((fetchSchemaAdvice groupId clusterName stream st env schemaResp).1 =
      if schemaResp.ok then .ok schemaResp.body
      else .error ("Failed to fetch schema advice: " ++ schemaResp.statusText)) ∧
    ((fetchSuggestedIndexes groupId clusterName stream st env indexesResp).1 =
      if indexesResp.ok then .ok indexesResp.body
      else .error ("Failed to fetch suggested indexes: " ++ indexesResp.statusText)) ∧
    (clustersResp.ok = false →
      (selectCluster pid connStr st env projResp pq clustersResp cq).1 =
        .error ("Failed to fetch clusters: " ++ clustersResp.statusText)) ∧
    (clustersResp.ok = true →
      ∃ v, (selectCluster pid connStr st env projResp pq clustersResp cq).1 = .ok v) ∧
    ((refreshAccessToken stream st env).1 =
      if env.authResponse.ok then .ok ()
      else .error ("Failed to refresh access token: " ++ env.authResponse.statusText)) := by
  refine ⟨getProjects_result st env projResp td hstale htd,
          fetchSchemaAdvice_result groupId clusterName stream st env schemaResp td hstale htd,
          fetchSuggestedIndexes_result groupId clusterName stream st env indexesResp td hstale htd,
          selectCluster_fresh_fail pid connStr st env projResp pq clustersResp cq td hPid hstale htd,
          ?_,
          refreshAccessToken_result stream st env creds hCreds⟩
  intro h
  refine selectCluster_ok pid connStr st env projResp pq clustersResp cq hPid ?_ h
  rw [makeRequest_fresh ("groups/" ++ pid.getD "" ++ "/clusters") "GET" none
    false st env clustersResp td hstale htd]

/-- Witness for C4: a success project-list response parses to its body. -/
theorem atlas_throw_iff_response_not_ok_witness :
    (getProjects stFreshW envW projRespW).1 = Except.ok projRespW.body :=
  (atlas_throw_iff_response_not_ok stFreshW envW "g1" "c1" false (some "p1")
      none none none projRespW clustersRespW schemaRespW indexesRespW tdW credsW
      rfl (by decide) rfl (by decide)).1

/-- `_makeRequest` never shows a quick-pick. -/
theorem makeRequest_no_quickpick {β : Type} (endpoint method : String)
    (body : Option String) (stream : Bool) (st : AtlasState) (env : AuthEnv)
    (apiResponse : Response β) :
    ∀ items ph, Effect.showQuickPick items ph ∉
      (makeRequest endpoint method body stream st env apiResponse).2.2 := by
  intro items ph hmem
  cases hstale : tokenStale st.tokenData env.now with
  | true =>
    obtain ⟨credEffs, hce, hcase⟩ :=
      makeRequest_stale endpoint method body stream st env apiResponse hstale
    have hqp : Effect.showQuickPick items ph ∉ credEffs := by
      intro h
      exact (credEffect_not_fetch _ (hce _ h)).2.2 items ph rfl
    rcases hcase with ⟨h22, _⟩ | ⟨creds, h22, _⟩ | ⟨creds, td, htd2, h22, _⟩ <;>
      rw [h22] at hmem
    · exact hqp hmem
    · rcases List.mem_append.mp hmem with h | h
      · exact hqp h
      · simp at h
    · rcases List.mem_append.mp hmem with h | h
      · exact hqp h
      · simp at h
  | false =>
    cases htd : st.tokenData with
    | none => rw [htd] at hstale; simp [tokenStale] at hstale
    | some td =>
      rw [makeRequest_fresh endpoint method body stream st env apiResponse td
        hstale htd] at hmem
      simp at hmem

/-- C2. For every delivered, successful project-list response: with
`totalCount = 1` `getProjectId` returns the single project's id, caches it,
and shows no quick-pick; a quick-pick is shown only when `totalCount`
exceeds 1; and with `totalCount = 0` it returns null. -/
theorem getProjectId_totalCount_cases (st : AtlasState) (env : AuthEnv)
    (projResp : Response ProjectsResponseBody) (quickPick : Option String)
    (hCache : st.projectId = none)
    (hSent : (makeRequest "groups" "GET" none false st env projResp).1 =
      Except.ok projResp)
    (hOk : projResp.ok = true) :
    (∀ p rest, projResp.body.totalCount = 1 →
      projResp.body.results = p :: rest →
      (getProjectId st env projResp quickPick).1 = .ok (some p.id) ∧
      (getProjectId st env projResp quickPick).2.1.projectId = some p.id ∧
      (∀ items ph, Effect.showQuickPick items ph ∉
        (getProjectId st env projResp quickPick).2.2)) ∧
    (∀ items ph, Effect.showQuickPick items ph ∈
        (getProjectId st env projResp quickPick).2.2 →
      1 < projResp.body.totalCount) ∧
    (projResp.body.totalCount = 0 →
      (getProjectId st env projResp quickPick).1 = .ok none) := by
  rcases hM : makeRequest "groups" "GET" none false st env projResp with ⟨r, st1, effs⟩
  rw [hM] at hSent
  obtain rfl : r = Except.ok projResp := by simpa using hSent
  have hGP : getProjects st env projResp = (.ok projResp.body, st1, effs) := by
    unfold getProjects
    rw [hM]
    simp [hOk]
  have hQP : ∀ items ph, Effect.showQuickPick items ph ∉ effs := by
    intro items ph
    have h2 := makeRequest_no_quickpick "groups" "GET" none false st env projResp items ph
    rw [hM] at h2
    exact h2
  unfold getProjectId
  rw [hCache, hGP]
  refine ⟨?_, ?_, ?_⟩
  · intro p rest h1 hres
    simp only [h1, hres]
    refine ⟨by simp, by simp, ?_⟩
    simpa using hQP
  · intro items ph hmem
    by_cases h0 : projResp.body.totalCount = 0
    · simp only [h0] at hmem
      simp at hmem
      exact absurd hmem (hQP items ph)
    · by_cases h1 : projResp.body.totalCount = 1
      · simp only [h1] at hmem
        cases hres : projResp.body.results with
        | nil =>
          rw [hres] at hmem
          simp at hmem
          exact absurd hmem (hQP items ph)
        | cons p rest =>
          rw [hres] at hmem
          simp at hmem
          exact absurd hmem (hQP items ph)
      · omega
  · intro h0
    simp [h0]

/-- Witness for C2: one project in a success response is auto-selected and
cached. -/
theorem getProjectId_totalCount_witness :
    (getProjectId stFreshW envW projRespW none).1 = Except.ok (some "p1") ∧
    (getProjectId stFreshW envW projRespW none).2.1.projectId = some "p1" := by
  have h := (getProjectId_totalCount_cases stFreshW envW projRespW none rfl
    rfl rfl).1 projW [] rfl rfl
  exact ⟨h.1, h.2.1⟩

/-- Counterexample to C3 as stated. For the delivered URI path
`/mdb.openOverviewPage` (every deep-link URI path the host delivers starts
with a slash), the claim's derivation — prefix the URI path with `mdb.`
when the path does not already start with `mdb.` — yields
`mdb./mdb.openOverviewPage`, which is not a registered identifier, so under
the claim no command would execute; the handler instead strips the single
leading slash first, derives `mdb.openOverviewPage` and executes it. -/
theorem handleDeepLink_claim_counterexample :
    claimDeriveDeepLinkCommand "/mdb.openOverviewPage" = "mdb./mdb.openOverviewPage" ∧
    deriveDeepLinkCommand "/mdb.openOverviewPage" = "mdb.openOverviewPage" ∧
    "mdb./mdb.openOverviewPage" ∉ ["mdb.openOverviewPage"] ∧
    Effect.executeCommand "mdb.openOverviewPage" [] ∈
      handleDeepLink "vscode://mongodb.mongodb-vscode/mdb.openOverviewPage"
        "/mdb.openOverviewPage" "" ["mdb.openOverviewPage"] parseQueryW
        (.ok ()) := by
  refine ⟨by decide, by decide, by decide, by decide⟩

/-- C3 (amended). The deep-link handler strips one leading slash from the
URI path, prefixes `mdb.` when the stripped path does not already start
with `mdb.`, and parses the query string into parameters (dropping
`utm_source`); it executes the derived command with those parameters only
when the identifier is registered, and for an unregistered identifier it
executes no command and shows an error message naming the command. -/
theorem handleDeepLink_amended (uriString path query : String)
    (registered : List String) (parseQuery : String → List (String × QVal))
    (executeResult : Except String Unit) :
    (registered.contains (deriveDeepLinkCommand path) = true →
      Effect.executeCommand (deriveDeepLinkCommand path)
          ((parseQuery query).filter (fun p => !(p.1 == "utm_source"))) ∈
        handleDeepLink uriString path query registered parseQuery executeResult) ∧
    (registered.contains (deriveDeepLinkCommand path) = false →
      (∀ c ps, Effect.executeCommand c ps ∉
        handleDeepLink uriString path query registered parseQuery executeResult) ∧
      Effect.showErrorMessage ("Failed to handle '" ++ uriString ++
          "': Error: Unable to execute command '" ++ deriveDeepLinkCommand path ++
          "' since it is not registered by the MongoDB extension.") ∈
        handleDeepLink uriString path query registered parseQuery executeResult) := by
  constructor
  · intro hreg
    have hmem : deriveDeepLinkCommand path ∈ registered := by simpa using hreg
    unfold handleDeepLink
    cases executeResult <;> simp [hmem]
  · intro hreg
    have hnmem : deriveDeepLinkCommand path ∉ registered := by simpa using hreg
    constructor
    · intro c ps hm
      unfold handleDeepLink at hm
      simp [hnmem] at hm
    · unfold handleDeepLink
      simp [hnmem]

/-- Witness for C3 (amended): a registered deep link executes its command. -/
theorem handleDeepLink_amended_witness :
    Effect.executeCommand "mdb.openOverviewPage" [] ∈
      handleDeepLink "vscode://mongodb.mongodb-vscode/openOverviewPage"
        "/openOverviewPage" "" ["mdb.openOverviewPage"] parseQueryW (.ok ()) := by
  have h := (handleDeepLink_amended "vscode://mongodb.mongodb-vscode/openOverviewPage"
    "/openOverviewPage" "" ["mdb.openOverviewPage"] parseQueryW (.ok ())).1 (by decide)
  exact h

/-- C7. Dispatching an identifier registered through the registration table
invokes exactly the wrapper installed for it: a command-run telemetry event
for the identifier, then the registered handler's effects, with the
handler's result returned unchanged. -/
theorem dispatch_registered_command {α : Type}
    (table : List (String × CommandHandler α)) (command : String)
    (handler : CommandHandler α) (args : α)
    (hfind : table.find? (fun entry => entry.1 == command) =
      some (command, handler)) :
    dispatchCommand (registerAll table) command args =
      some (Effect.track (TelemetryEvent.commandRun command) :: (handler args).1,
            (handler args).2) := by
  have hreg : registerAll table =
      table.map (fun entry => (entry.1, commandHandlerWithTelemetry entry.1 entry.2)) := by
    unfold registerAll
    suffices h : ∀ acc : CommandRegistry α,
        table.foldl (fun registry entry => registerCommand registry entry.1 entry.2) acc =
          acc ++ table.map (fun entry =>
            (entry.1, commandHandlerWithTelemetry entry.1 entry.2)) by
      simpa using h []
    clear hfind
    induction table with
    | nil => intro acc; simp
    | cons e t ih =>
      intro acc
      rw [List.foldl_cons, ih]
      simp [registerCommand, List.append_assoc]
  unfold dispatchCommand
  rw [hreg, List.find?_map]
  have hpred : ((fun entry : String × CommandHandler α => entry.1 == command) ∘
      (fun entry : String × CommandHandler α =>
        (entry.1, commandHandlerWithTelemetry entry.1 entry.2))) =
      fun entry : String × CommandHandler α => entry.1 == command := rfl
  rw [hpred, hfind]
  simp [commandHandlerWithTelemetry]

/-- Witness for C7 at a one-entry table. -/
theorem dispatch_registered_command_witness :
    dispatchCommand (registerAll tableW) "mdb.openOverviewPage" 0 =
      some ([Effect.track (TelemetryEvent.commandRun "mdb.openOverviewPage")], true) := by
  have h := dispatch_registered_command tableW "mdb.openOverviewPage" handlerW 0 rfl
  exact h

/-- C8. For a connection string the URL parser accepts,
`isAtlasConnectionString` returns true exactly when the protocol is
`mongodb+srv:` and the hostname ends with `.mongodb.net` or
`.mongodb-dev.net`; for a string the parser rejects, the function throws. -/
theorem isAtlasConnectionString_spec
    (parseURL : String → Option (String × String)) (cs : String) :
    (∀ protocol hostname, parseURL cs = some (protocol, hostname) →
      isAtlasConnectionString parseURL cs =
        .ok (protocol == "mongodb+srv:" &&
          (strEndsWith hostname ".mongodb.net" ||
           strEndsWith hostname ".mongodb-dev.net")) ∧
      (isAtlasConnectionString parseURL cs = .ok true ↔
        protocol = "mongodb+srv:" ∧
        (strEndsWith hostname ".mongodb.net" = true ∨
         strEndsWith hostname ".mongodb-dev.net" = true))) ∧
    (parseURL cs = none →
      ∃ e, isAtlasConnectionString parseURL cs = .error e) := by
  constructor
  · intro protocol hostname hp
    have h1 : isAtlasConnectionString parseURL cs =
        .ok (protocol == "mongodb+srv:" &&
          (strEndsWith hostname ".mongodb.net" ||
           strEndsWith hostname ".mongodb-dev.net")) := by
      unfold isAtlasConnectionString
      rw [hp]
    refine ⟨h1, ?_⟩
    rw [h1]
    simp [Bool.and_eq_true, Bool.or_eq_true]
  · intro hp
    exact ⟨"TypeError: Invalid URL", by unfold isAtlasConnectionString; rw [hp]⟩

/-- Witness for C8 on a parsed Atlas SRV connection string. -/
theorem isAtlasConnectionString_spec_witness :
    isAtlasConnectionString parseURLW "mongodb+srv://cluster0.mongodb.net/" =
      Except.ok true := by
  have h := ((isAtlasConnectionString_spec parseURLW
    "mongodb+srv://cluster0.mongodb.net/").1 "mongodb+srv:"
    "cluster0.mongodb.net" rfl).2
  exact h.mpr ⟨rfl, Or.inl (by decide)⟩

/-- C9. With no stored opt-in preference: dismissing the consent dialog
returns false and stores nothing, so a later call shows the dialog again;
choosing Yes or No stores true or false and returns it; with a stored
preference, that value is returned with no dialog. -/
theorem isOptedIn_spec (stored : Option Bool) (resp resp2 : Option String) :
    (stored = none ∧ resp = none →
      isOptedIn stored resp =
        (false, none, [Effect.showInfoDialog optInDialogMessage]) ∧
      Effect.showInfoDialog optInDialogMessage ∈
        (isOptedIn (isOptedIn stored resp).2.1 resp2).2.2) ∧
    (stored = none ∧ resp = some "Yes" →
      isOptedIn stored resp =
        (true, some true,
         [Effect.showInfoDialog optInDialogMessage, Effect.setOptedIn true])) ∧
    (stored = none ∧ resp = some "No" →
      isOptedIn stored resp =
        (false, some false,
         [Effect.showInfoDialog optInDialogMessage, Effect.setOptedIn false])) ∧
    (∀ v, stored = some v → isOptedIn stored resp = (v, some v, [])) := by
  refine ⟨?_, ?_, ?_, ?_⟩
  · rintro ⟨rfl, rfl⟩
    refine ⟨rfl, ?_⟩
    cases resp2 with
    | none => simp [isOptedIn]
    | some t =>
      simp only [isOptedIn]
      split <;> simp
  · rintro ⟨rfl, rfl⟩
    rfl
  · rintro ⟨rfl, rfl⟩
    rfl
  · rintro v rfl
    rfl

/-- Witness for C9: choosing Yes persists and returns true. -/
theorem isOptedIn_spec_witness :
    isOptedIn none (some "Yes") =
      (true, some true,
       [Effect.showInfoDialog optInDialogMessage, Effect.setOptedIn true]) :=
  (isOptedIn_spec none (some "Yes") none).2.1 ⟨rfl, rfl⟩

/-- C10. `doMessagesContainUserInput` returns true exactly when some message
has the User role and non-empty content; in particular it returns false for
the empty list. -/
theorem doMessagesContainUserInput_iff (messages : List ChatMessage) :
    (doMessagesContainUserInput messages = true ↔
      ∃ m ∈ messages, m.role = ChatMessageRole.user ∧ isContentEmpty m = false) ∧
    doMessagesContainUserInput [] = false := by
  refine ⟨?_, rfl⟩
  induction messages with
  | nil => simp [doMessagesContainUserInput]
  | cons m rest ih =>
    by_cases h : (m.role == ChatMessageRole.user && !isContentEmpty m) = true
    · have h2 : m.role = ChatMessageRole.user ∧ isContentEmpty m = false := by
        simpa using h
      have hval : doMessagesContainUserInput (m :: rest) = true := by
        rw [doMessagesContainUserInput]
        simp [h]
      rw [hval]
      constructor
      · intro _
        exact ⟨m, List.mem_cons_self m rest, h2.1, h2.2⟩
      · intro _
        rfl
    · have hres : doMessagesContainUserInput (m :: rest) =
          doMessagesContainUserInput rest := by
        rw [doMessagesContainUserInput]
        simp [h]
      rw [hres, ih]
      constructor
      · rintro ⟨x, hx, hxr, hxc⟩
        exact ⟨x, List.mem_cons_of_mem m hx, hxr, hxc⟩
      · rintro ⟨x, hx, hxr, hxc⟩
        rcases List.mem_cons.mp hx with rfl | hx2
        · exact absurd (by simp [hxr, hxc]) h
        · exact ⟨x, hx2, hxr, hxc⟩
